import Mathlib

/-
Verification development for the python-backend repository (src/app.py).

The program is a small HTTP service that receives untrusted Python source
code, writes it to a unique temporary file, executes it in a subprocess
under a 5 second wall-clock limit, runs flake8 over the same file, and
returns a JSON report with output, error and lint_feedback fields.

Embedding choices:
- Python strings are embedded as List Char; the relevant Python string
  operations (strip, split with and without maxsplit, substring
  membership) are defined below, faithful to their Python semantics on
  ASCII text.
- The operating system behavior of one subprocess invocation is an
  explicit SubprocOutcome value: the process completed with captured
  streams and a return code, the wait raised TimeoutExpired, or launching
  raised some other exception.  run_subprocess is then a pure function of
  that outcome, exactly mirroring the try/except structure of the source.
- The request handler execute_python is a pure function of the request
  shape and of an Env record that carries every nondeterministic outside
  event the handler can observe: the temporary file path, possible
  faults while creating or writing the file, both subprocess outcomes,
  and a possible fault while removing the file.  It returns the HTTP
  response together with a Trace of workspace (temporary file) events,
  which lets theorems speak about creation and removal of the scratch
  file.
-/

namespace PyExec

/-- Characters treated as whitespace by the Python strip method, ASCII range. -/
def isPyWS (c : Char) : Bool :=
  c == ' ' || c == '\t' || c == '\n' || c == '\r' || c == '\x0b' || c == '\x0c'

/-- Embedding of the Python strip method on character lists: remove leading
and trailing whitespace. -/
def pyStrip (l : List Char) : List Char :=
  ((l.dropWhile isPyWS).reverse.dropWhile isPyWS).reverse

/-- isPre a b holds when a is a leading segment of b. -/
def isPre : List Char → List Char → Bool
  | [], _ => true
  | _ :: _, [] => false
  | a :: as, b :: bs => a == b && isPre as bs

/-- Embedding of the Python substring membership test, the in operator on
strings: the first list occurs contiguously inside the second. -/
def pyIn (needle : List Char) : List Char → Bool
  | [] => isPre needle []
  | c :: rest => isPre needle (c :: rest) || pyIn needle rest

/-- Embedding of the Python split method with a maxsplit bound, as in
line.split(c, n): at most n splits are performed, so at most n + 1 parts
are produced, and the remainder after the last split is kept whole. -/
def pySplitMax (sep : Char) : Nat → List Char → List (List Char)
  | 0, cs => [cs]
  | n + 1, cs =>
    match cs.dropWhile (fun c => c != sep) with
    | [] => [cs]
    | _ :: tail => cs.takeWhile (fun c => c != sep) :: pySplitMax sep n tail

/-- Embedding of the Python split method with a separator and no maxsplit
bound, as in text.split(c). -/
def pySplitAll (sep : Char) : List Char → List (List Char)
  | [] => [[]]
  | c :: rest =>
    if c == sep then [] :: pySplitAll sep rest
    else
      match pySplitAll sep rest with
      | [] => [[c]]
      | p :: ps => (c :: p) :: ps

/-- Rendering of a Python integer inside an f-string. -/
def intStr (n : Int) : List Char := (toString n).toList

/-- Rendering of the optional timeout argument inside an f-string; Python
renders the value None as the four letters None. -/
def timeoutStr : Option Nat → List Char
  | none => "None".toList
  | some n => (toString n).toList

/-- One observed behavior of the operating system for one subprocess
invocation: the process ran to completion with fully captured stdout and
stderr and a return code (negative when the process was killed by a
signal), the wait raised TimeoutExpired, or launching the command raised
some other exception whose message is msg. -/
inductive SubprocOutcome
  | completed (stdout stderr : List Char) (returncode : Int)
  | timedOut
  | launchError (msg : List Char)
deriving DecidableEq

/-- Execution timeout constant from src/app.py line 10. -/
def EXECUTION_TIMEOUT : Nat := 5

/-- Embedding of run_subprocess, src/app.py lines 19 to 36.  Given the
timeout argument and the outcome of the one subprocess invocation it
performs, it returns the triple of optional stdout, stderr text and
return code: captured streams and the real return code on completion, a
fixed timeout message with sentinel code -1 on TimeoutExpired, and an
error message with sentinel code -2 on any other exception. -/
def run_subprocess (timeout : Option Nat) (world : SubprocOutcome) :
    Option (List Char) × List Char × Int :=
  match world with
  | .completed stdout stderr code => (some stdout, stderr, code)
  | .timedOut =>
      (none, "Execution timed out after ".toList ++ timeoutStr timeout
        ++ " seconds.".toList, -1)
  | .launchError m => (none, "Error running subprocess: ".toList ++ m, -2)

/-- The three completion statuses named by the specification, together
with how the caller of run_subprocess classifies a returned code:
src/app.py lines 85 to 93 treat -1 as timeout, -2 as launch failure and
anything else as a real process exit. -/
inductive Classified
  | timedOutC
  | launchFailedC
  | exitedC (code : Int)
deriving DecidableEq

/-- Classification of a return code performed by execute_python at
src/app.py lines 85 to 93. -/
def classify_return_code (rc : Int) : Classified :=
  if rc = -1 then .timedOutC
  else if rc = -2 then .launchFailedC
  else .exitedC rc

/-- A JSON value found under the code key: either a Python string or a
non-string value of which only the Python type name matters (it appears
in the TypeError message raised when the value is written to the file). -/
inductive PyVal
  | pstr (s : List Char)
  | nonStr (typeName : List Char)
deriving DecidableEq

/-- The request as the handler observes it: whether Flask recognizes the
body as JSON, and the result of data.get applied to the code key (none
both when the key is absent and when it is JSON null, since both give
the Python value None). -/
structure Request where
  is_json : Bool
  code : Option PyVal
deriving DecidableEq

/-- Every nondeterministic outside event one call of execute_python can
observe: the unique temporary file path, a possible exception message
while creating the temporary file, a possible exception message while
writing a string submission to it, the outcomes of the execute and lint
subprocess invocations, and a possible exception message while removing
the file. -/
structure Env where
  tmpPath : List Char
  tmpCreateFault : Option (List Char)
  writeFault : Option (List Char)
  execOutcome : SubprocOutcome
  lintOutcome : SubprocOutcome
  removeFault : Option (List Char)
deriving DecidableEq

/-- The HTTP response: a 400 error body, or the 200 report with output,
error and lint_feedback fields. -/
inductive Response
  | badRequest (msg : List Char)
  | report (output error lint_feedback : List Char)
deriving DecidableEq

/-- HTTP status code of a response, as returned by the source. -/
def statusOf : Response → Nat
  | .badRequest _ => 400
  | .report _ _ _ => 200

/-- The error field of a 200 report, empty for a 400 response. -/
def errTextOf : Response → List Char
  | .badRequest _ => []
  | .report _ e _ => e

/-- The output field of a 200 report, empty for a 400 response. -/
def outTextOf : Response → List Char
  | .badRequest _ => []
  | .report o _ _ => o

/-- The lint_feedback field of a 200 report, empty for a 400 response. -/
def lintTextOf : Response → List Char
  | .badRequest _ => []
  | .report _ _ lf => lf

/-- Workspace events of one call: temporary file paths created, paths
successfully removed, and paths whose removal failed and was only logged. -/
structure Trace where
  created : List (List Char)
  removed : List (List Char)
  removeFailed : List (List Char)
deriving DecidableEq

/-- The single quote character, written by code point. -/
def sq : Char := Char.ofNat 39

/-- Body of the 400 response for a JSON payload without a code field. -/
def missingCodeMsg : List Char :=
  "Missing ".toList ++ sq :: "code".toList ++ sq :: " field in JSON payload".toList

/-- The exception message raised by writing a non-string Python value to a
text file, as in src/app.py line 65 when the code field is not a string. -/
def write_fault : PyVal → Env → Option (List Char)
  | .pstr _, e => e.writeFault
  | .nonStr t, _ => some ("write() argument must be str, not ".toList ++ t)

/-- The detail text of the first unexpected fault the try block of
execute_python raises, if any: a temporary file creation fault takes
effect before a write fault. -/
def fault_detail (v : PyVal) (e : Env) : Option (List Char) :=
  match e.tmpCreateFault with
  | some d => some d
  | none => write_fault v e

/-- Mapping of the execute subprocess result to the output and error
fields, src/app.py lines 78 to 93: stdout becomes the output when
present; stderr is appended to the error; then the return code adds its
specific context, with -1 and -2 recognized as the timeout and launch
failure sentinels and any other non-zero code reported as a process
exit status unless the stderr already contains that same sentence. -/
def exec_report (stdout_opt : Option (List Char)) (stderr : List Char) (rc : Int) :
    List Char × List Char :=
  let output := match stdout_opt with | some s => s | none => []
  let error := stderr
  let error :=
    if rc = -1 then
      pyStrip ("Timeout Error: Execution exceeded ".toList
        ++ (toString EXECUTION_TIMEOUT).toList ++ " seconds. ".toList ++ error)
    else if rc = -2 then
      pyStrip ("Execution Error: Failed to run subprocess. ".toList ++ error)
    else if rc ≠ 0 then
      let error_msg := "Process exited with status code ".toList ++ intStr rc ++ ".".toList
      if pyIn error_msg error = false then
        pyStrip (error_msg ++ " ".toList ++ error)
      else error
    else error
  (output, error)

/-- Formatting of one raw flake8 output line, src/app.py lines 109 to 113:
split on the colon at most 3 times; with exactly 4 parts drop the path
part and emit the line, column and stripped message; any other shape is
kept unchanged. -/
def format_lint_line (line : List Char) : List Char :=
  match pySplitMax ':' 3 line with
  | [_p, l, c, m] => ('L' :: l) ++ (':' :: c) ++ (':' :: ' ' :: pyStrip m)
  | _ => line

/-- Formatting of the whole flake8 stdout, src/app.py lines 104 to 114:
strip it, split into lines, format each line, join with newlines. -/
def format_flake8_output (lint_stdout : List Char) : List Char :=
  List.intercalate ['\n'] ((pySplitAll '\n' (pyStrip lint_stdout)).map format_lint_line)

/-- The lint_feedback field built from the lint subprocess result,
src/app.py lines 101 to 118: a truthy stdout is formatted; a truthy
stderr appends a stripped Flake8 Error section; the return code of the
linter is not consulted. -/
def lintFeedback (res : Option (List Char) × List Char × Int) : List Char :=
  let lint_stdout := res.1
  let lint_stderr := res.2.1
  let feedback : List Char :=
    match lint_stdout with
    | some s => if s ≠ [] then format_flake8_output s else []
    | none => []
  if lint_stderr ≠ [] then
    feedback ++ pyStrip ('\n' :: "--- Flake8 Error ---".toList ++ '\n' :: lint_stderr)
  else feedback

/-- The finally block of execute_python, src/app.py lines 126 to 133, for
the case where the temporary file was created: removal is attempted; on
success the file is removed, on failure a warning is logged and the file
stays. -/
def cleanup_trace (e : Env) : Trace :=
  match e.removeFault with
  | none => ⟨[e.tmpPath], [e.tmpPath], []⟩
  | some _ => ⟨[e.tmpPath], [], [e.tmpPath]⟩

/-- The try/except/finally body of execute_python, src/app.py lines 59 to
133, producing the raw output, error and lint_feedback values plus the
workspace trace.  A creation fault leaves no file behind; a write fault
happens after creation, so cleanup still runs; both append the server
error text to the error value accumulated so far, which is empty at that
point.  Otherwise the submission is executed with the 5 second timeout
and linted with no timeout. -/
def run_pipeline (v : PyVal) (e : Env) : (List Char × List Char × List Char) × Trace :=
  match e.tmpCreateFault with
  | some d =>
      (([], '\n' :: "Server Error during processing: ".toList ++ d, []), ⟨[], [], []⟩)
  | none =>
    match write_fault v e with
    | some d =>
        (([], '\n' :: "Server Error during processing: ".toList ++ d, []), cleanup_trace e)
    | none =>
      let execRes := run_subprocess (some EXECUTION_TIMEOUT) e.execOutcome
      let rep := exec_report execRes.1 execRes.2.1 execRes.2.2
      let lf := lintFeedback (run_subprocess none e.lintOutcome)
      ((rep.1, rep.2, lf), cleanup_trace e)

/-- Embedding of the whole handler execute_python, src/app.py lines 40 to
142: a non-JSON request and a missing code value are rejected with 400
before any workspace exists; otherwise the pipeline runs and the three
fields are stripped and returned with status 200. -/
def execute_python (req : Request) (e : Env) : Response × Trace :=
  if req.is_json = false then
    (.badRequest "Request must be JSON".toList, ⟨[], [], []⟩)
  else
    match req.code with
    | none => (.badRequest missingCodeMsg, ⟨[], [], []⟩)
    | some v =>
      let r := run_pipeline v e
      (.report (pyStrip r.1.1) (pyStrip r.1.2.1) (pyStrip r.1.2.2), r.2)

/-- The shape of one HTTP request body as the transport collaborators
present it to the route: the mimetype does not indicate JSON; the mimetype
indicates JSON but the body does not parse as JSON; the body parses to a
JSON document that is not an object (a list, string, number, boolean or
null document), carrying the Python type name of the parsed value; or the
body parses to an object, carrying the result of data.get for the code
key (none both when the key is absent and when its value is JSON null). -/
inductive ReqBody
  | notJsonMime
  | badJson
  | jsonNonDict (typeName : List Char)
  | jsonDict (code : Option PyVal)
deriving DecidableEq

/-- What the client observes from one call of the route: either the
response the handler itself returned together with the workspace trace, or
the status of the error page the framework substitutes when an exception
escapes the handler, together with the workspace trace at that point. -/
inductive RouteResult
  | handlerResponse (resp : Response) (tr : Trace)
  | frameworkError (status : Nat) (tr : Trace)
deriving DecidableEq

/-- HTTP status of a route result. -/
def routeStatus : RouteResult → Nat
  | .handlerResponse r _ => statusOf r
  | .frameworkError s _ => s

/-- Embedding of the route boundary, src/app.py lines 44 to 51, over all
body shapes, using the documented behavior of the Flask collaborators:
request.is_json consults the mimetype only, so it is false exactly for
notJsonMime and the handler returns its own 400 body there; on badJson,
request.get_json at line 47 raises BadRequest, which escapes the handler
and the framework answers 400 with its own default body; on a non-object
JSON document, data.get at line 48 raises AttributeError, which escapes
the handler before the try block and the framework answers 500; on an
object body the handler proceeds as execute_python with the observed code
value.  Both escape paths happen before any workspace exists, so their
trace is empty. -/
def execute_python_route (b : ReqBody) (e : Env) : RouteResult :=
  match b with
  | .notJsonMime =>
      .handlerResponse (execute_python ⟨false, none⟩ e).1 (execute_python ⟨false, none⟩ e).2
  | .badJson => .frameworkError 400 ⟨[], [], []⟩
  | .jsonNonDict _ => .frameworkError 500 ⟨[], [], []⟩
  | .jsonDict c =>
      .handlerResponse (execute_python ⟨true, c⟩ e).1 (execute_python ⟨true, c⟩ e).2

/-! Helper lemmas about the embedded Python string operations. -/

theorem dropWhile_append_cases {α : Type} [DecidableEq α] (p : α → Bool) (a b : List α) :
    List.dropWhile p (a ++ b) =
      if List.dropWhile p a = [] then List.dropWhile p b else List.dropWhile p a ++ b := by
  induction a with
  | nil => simp
  | cons x t ih =>
    by_cases hx : p x
    · simpa [List.dropWhile_cons_of_pos hx] using ih
    · simp [List.dropWhile_cons_of_neg hx]

theorem pyStrip_of_clean {l : List Char} (h1 : List.dropWhile isPyWS l = l)
    (h2 : List.dropWhile isPyWS l.reverse = l.reverse) : pyStrip l = l := by
  unfold pyStrip
  rw [h1, h2, List.reverse_reverse]

theorem pyStrip_cons_ws {c : Char} (hc : isPyWS c = true) (l : List Char) :
    pyStrip (c :: l) = pyStrip l := by
  unfold pyStrip
  rw [List.dropWhile_cons_of_pos hc]

theorem strip_concat_clean {xs d : List Char} (hx : List.dropWhile isPyWS xs = xs)
    (hxne : xs ≠ []) (hd : List.dropWhile isPyWS d.reverse = d.reverse) (hdne : d ≠ []) :
    pyStrip (xs ++ d) = xs ++ d := by
  apply pyStrip_of_clean
  · rw [dropWhile_append_cases, hx, if_neg hxne]
  · have hrev : d.reverse ≠ [] := by simpa using hdne
    rw [List.reverse_append, dropWhile_append_cases, hd, if_neg hrev]

theorem isPre_refl (l : List Char) : isPre l l = true := by
  induction l with
  | nil => rfl
  | cons x t ih => simp [isPre, ih]

theorem isPre_append (a t : List Char) : isPre a (a ++ t) = true := by
  induction a with
  | nil => rfl
  | cons x xs ih => simp [isPre, ih]

theorem pyIn_of_isPre {n h : List Char} (hp : isPre n h = true) : pyIn n h = true := by
  cases h with
  | nil => simpa [pyIn] using hp
  | cons c rest => simp [pyIn, hp]

theorem pyIn_self (l : List Char) : pyIn l l = true :=
  pyIn_of_isPre (isPre_refl l)

theorem pyIn_append_left {n h : List Char} (x : List Char) (hp : pyIn n h = true) :
    pyIn n (x ++ h) = true := by
  induction x with
  | nil => simpa using hp
  | cons c t ih => simp [pyIn, ih]

theorem isPre_msg_strip {msg rest : List Char} (h1 : List.dropWhile isPyWS msg = msg)
    (hne : msg ≠ []) (h2 : List.dropWhile isPyWS msg.reverse = msg.reverse) :
    isPre msg (pyStrip (msg ++ rest)) = true := by
  unfold pyStrip
  rw [dropWhile_append_cases, h1, if_neg hne, List.reverse_append, dropWhile_append_cases]
  by_cases hr : List.dropWhile isPyWS rest.reverse = []
  · rw [if_pos hr, h2, List.reverse_reverse]
    exact isPre_refl msg
  · rw [if_neg hr, List.reverse_append, List.reverse_reverse]
    exact isPre_append msg _

theorem exists_append_dropWhile {α : Type} (p : α → Bool) (l : List α) :
    ∃ s, s ++ List.dropWhile p l = l :=
  ⟨l.takeWhile p, List.takeWhile_append_dropWhile p l⟩

theorem pyStrip_back_clean (l : List Char) :
    List.dropWhile isPyWS (pyStrip l).reverse = (pyStrip l).reverse := by
  unfold pyStrip
  rw [List.reverse_reverse]
  exact List.dropWhile_idempotent _ _

theorem pyStrip_front_clean (l : List Char) :
    List.dropWhile isPyWS (pyStrip l) = pyStrip l := by
  by_cases h0 : pyStrip l = []
  · rw [h0]
    rfl
  · obtain ⟨s, hs⟩ := exists_append_dropWhile isPyWS (List.dropWhile isPyWS l).reverse
    have hA : pyStrip l ++ s.reverse = List.dropWhile isPyWS l := by
      have hrev := congrArg List.reverse hs
      simpa [pyStrip, List.reverse_append] using hrev
    have hfrontA : List.dropWhile isPyWS (List.dropWhile isPyWS l) = List.dropWhile isPyWS l :=
      List.dropWhile_idempotent _ _
    rw [← hA, dropWhile_append_cases] at hfrontA
    by_cases hp : List.dropWhile isPyWS (pyStrip l) = []
    · exfalso
      have hall : ∀ x ∈ pyStrip l, isPyWS x := List.dropWhile_eq_nil_iff.mp hp
      have hback := pyStrip_back_clean l
      have hnil : List.dropWhile isPyWS (pyStrip l).reverse = [] := by
        rw [List.dropWhile_eq_nil_iff]
        intro x hx
        exact hall x (List.mem_reverse.mp hx)
      rw [hback] at hnil
      exact h0 (by simpa using hnil)
    · rw [if_neg hp] at hfrontA
      exact List.append_cancel_right hfrontA

theorem pyStrip_idem (l : List Char) : pyStrip (pyStrip l) = pyStrip l :=
  pyStrip_of_clean (pyStrip_front_clean l) (pyStrip_back_clean l)

theorem front_clean_append {a : List Char} (b : List Char)
    (ha : List.dropWhile isPyWS a = a) (hane : a ≠ []) :
    List.dropWhile isPyWS (a ++ b) = a ++ b := by
  rw [dropWhile_append_cases, ha, if_neg hane]

theorem back_clean_append (a : List Char) {b : List Char}
    (hb : List.dropWhile isPyWS b.reverse = b.reverse) (hbne : b ≠ []) :
    List.dropWhile isPyWS (a ++ b).reverse = (a ++ b).reverse := by
  have hrev : b.reverse ≠ [] := by simpa using hbne
  rw [List.reverse_append, dropWhile_append_cases, hb, if_neg hrev]

theorem server_error_strip {d : List Char} (hne : d ≠ [])
    (hcl : List.dropWhile isPyWS d.reverse = d.reverse) :
    pyStrip ('\n' :: "Server Error during processing: ".toList ++ d) =
      "Server Error during processing: ".toList ++ d := by
  have hsplit : ('\n' :: "Server Error during processing: ".toList ++ d) =
      '\n' :: ("Server Error during processing: ".toList ++ d) := rfl
  rw [hsplit, pyStrip_cons_ws (by decide)]
  exact strip_concat_clean (by decide) (by decide) hcl hne

theorem execute_python_report (req : Request) (e : Env) (v : PyVal)
    (hj : req.is_json = true) (hc : req.code = some v) :
    execute_python req e =
      (.report (pyStrip (run_pipeline v e).1.1) (pyStrip (run_pipeline v e).1.2.1)
        (pyStrip (run_pipeline v e).1.2.2), (run_pipeline v e).2) := by
  simp [execute_python, hj, hc]

theorem run_pipeline_ok (v : PyVal) (e : Env) (hcf : e.tmpCreateFault = none)
    (hwf : write_fault v e = none) :
    run_pipeline v e =
      (((exec_report (run_subprocess (some EXECUTION_TIMEOUT) e.execOutcome).1
          (run_subprocess (some EXECUTION_TIMEOUT) e.execOutcome).2.1
          (run_subprocess (some EXECUTION_TIMEOUT) e.execOutcome).2.2).1,
        (exec_report (run_subprocess (some EXECUTION_TIMEOUT) e.execOutcome).1
          (run_subprocess (some EXECUTION_TIMEOUT) e.execOutcome).2.1
          (run_subprocess (some EXECUTION_TIMEOUT) e.execOutcome).2.2).2,
        lintFeedback (run_subprocess none e.lintOutcome)), cleanup_trace e) := by
  simp [run_pipeline, hcf, hwf]

/-! Claim theorems. -/

/-- C8 counterexample: the body is the valid JSON document consisting of a
list, Python type name list, which is a JSON body lacking a code key, yet
the client gets the framework 500 page caused by the AttributeError that
data.get raises on a non-dict, not the claimed 400 missing-code body. -/
theorem C8_nonobject_counterexample :
    routeStatus (execute_python_route (.jsonNonDict "list".toList)
      ⟨"/tmp/a.py".toList, none, none, .completed [] [] 0, .completed [] [] 0, none⟩) =
      500 ∧
    routeStatus (execute_python_route (.jsonNonDict "list".toList)
      ⟨"/tmp/a.py".toList, none, none, .completed [] [] 0, .completed [] [] 0, none⟩) ≠
      400 := by
  constructor
  · rfl
  · decide

/-- C8 amended: a request whose mimetype does not indicate JSON gets the
handler 400 response with body Request must be JSON; a JSON object body
without a usable code value gets the handler 400 response with the
missing-code body; in both cases the pipeline is never entered and the
workspace trace is empty.  But a body that parses to a JSON non-object
document, which also lacks a code key, makes data.get raise AttributeError
before the try block and the client sees the framework 500 page, and a
JSON-mimetype request whose body does not parse gets the framework default
400 page rather than the handler body; in both escape cases no workspace
is created either. -/
theorem C8_boundary_cases (b : ReqBody) (e : Env) (t : List Char) :
    (b = .notJsonMime →
      execute_python_route b e =
        .handlerResponse (.badRequest "Request must be JSON".toList) ⟨[], [], []⟩) ∧
    (b = .jsonDict none →
      execute_python_route b e =
        .handlerResponse (.badRequest missingCodeMsg) ⟨[], [], []⟩) ∧
    (b = .jsonNonDict t →
      execute_python_route b e = .frameworkError 500 ⟨[], [], []⟩) ∧
    (b = .badJson →
      execute_python_route b e = .frameworkError 400 ⟨[], [], []⟩) := by
  refine ⟨?_, ?_, ?_, ?_⟩ <;> intro hb <;> subst hb <;> rfl

/-- Witness for C8 amended at one concrete body of each shape. -/
theorem C8_boundary_cases_w :
    execute_python_route .notJsonMime
        ⟨"/tmp/a.py".toList, none, none, .timedOut, .timedOut, none⟩ =
      .handlerResponse (.badRequest "Request must be JSON".toList) ⟨[], [], []⟩ ∧
    execute_python_route (.jsonDict none)
        ⟨"/tmp/a.py".toList, none, none, .timedOut, .timedOut, none⟩ =
      .handlerResponse (.badRequest missingCodeMsg) ⟨[], [], []⟩ ∧
    execute_python_route (.jsonNonDict "int".toList)
        ⟨"/tmp/a.py".toList, none, none, .timedOut, .timedOut, none⟩ =
      .frameworkError 500 ⟨[], [], []⟩ ∧
    execute_python_route .badJson
        ⟨"/tmp/a.py".toList, none, none, .timedOut, .timedOut, none⟩ =
      .frameworkError 400 ⟨[], [], []⟩ :=
  ⟨(C8_boundary_cases .notJsonMime
      ⟨"/tmp/a.py".toList, none, none, .timedOut, .timedOut, none⟩ "int".toList).1 rfl,
    (C8_boundary_cases (.jsonDict none)
      ⟨"/tmp/a.py".toList, none, none, .timedOut, .timedOut, none⟩ "int".toList).2.1 rfl,
    (C8_boundary_cases (.jsonNonDict "int".toList)
      ⟨"/tmp/a.py".toList, none, none, .timedOut, .timedOut, none⟩ "int".toList).2.2.1 rfl,
    (C8_boundary_cases .badJson
      ⟨"/tmp/a.py".toList, none, none, .timedOut, .timedOut, none⟩ "int".toList).2.2.2 rfl⟩

/-- C1: every submission that reaches the coordinator, whatever the outside
world does, yields a report response with status 200, and when the try block
raised an unexpected fault with detail d the error field contains the text
Server Error during processing: followed by d.  The detail hypotheses say d is
nonempty with no trailing whitespace, which holds of Python exception texts. -/
theorem C1_always_report (req : Request) (e : Env) (v : PyVal)
    (hj : req.is_json = true) (hc : req.code = some v) :
    (∃ o er lf, (execute_python req e).1 = .report o er lf) ∧
    statusOf (execute_python req e).1 = 200 ∧
    (∀ d, fault_detail v e = some d → d ≠ [] →
      List.dropWhile isPyWS d.reverse = d.reverse →
      pyIn ("Server Error during processing: ".toList ++ d)
        (errTextOf (execute_python req e).1) = true) := by
  rw [execute_python_report req e v hj hc]
  refine ⟨⟨_, _, _, rfl⟩, rfl, ?_⟩
  intro d hd hne hcl
  simp only [errTextOf]
  cases hcf : e.tmpCreateFault with
  | some d0 =>
    have hd0 : d0 = d := by
      simp [fault_detail, hcf] at hd
      exact hd
    subst hd0
    simp only [run_pipeline, hcf]
    rw [server_error_strip hne hcl]
    exact pyIn_self _
  | none =>
    cases hwf : write_fault v e with
    | some d0 =>
      have hd0 : d0 = d := by
        simp [fault_detail, hcf, hwf] at hd
        exact hd
      subst hd0
      simp only [run_pipeline, hcf, hwf]
      rw [server_error_strip hne hcl]
      exact pyIn_self _
    | none =>
      exfalso
      simp [fault_detail, hcf, hwf] at hd

/-- Witness for C1 at a concrete request whose temporary file creation fault
is disk full. -/
theorem C1_always_report_w :
    (∃ o er lf,
      (execute_python ⟨true, some (.pstr "print(1)".toList)⟩
        ⟨"/tmp/a.py".toList, some "disk full".toList, none,
          .completed [] [] 0, .completed [] [] 0, none⟩).1 = .report o er lf) ∧
    pyIn ("Server Error during processing: ".toList ++ "disk full".toList)
      (errTextOf (execute_python ⟨true, some (.pstr "print(1)".toList)⟩
        ⟨"/tmp/a.py".toList, some "disk full".toList, none,
          .completed [] [] 0, .completed [] [] 0, none⟩).1) = true :=
  ⟨(C1_always_report _ _ _ rfl rfl).1,
    (C1_always_report ⟨true, some (.pstr "print(1)".toList)⟩
      ⟨"/tmp/a.py".toList, some "disk full".toList, none,
        .completed [] [] 0, .completed [] [] 0, none⟩
      (.pstr "print(1)".toList) rfl rfl).2.2 "disk full".toList rfl
      (by decide) (by decide)⟩

/-- C10: a JSON body whose code value is present but not a string passes the
boundary check; writing it to the workspace raises a TypeError inside the try
block, which is absorbed, so the handler still answers with a 200 report whose
error field contains Server Error during processing: rather than a 400
rejection.  The type name hypotheses hold of Python type names such as int. -/
theorem C10_nonstring_code (req : Request) (e : Env) (t : List Char)
    (hj : req.is_json = true) (hc : req.code = some (.nonStr t))
    (hcf : e.tmpCreateFault = none) (ht : t ≠ [])
    (htc : List.dropWhile isPyWS t.reverse = t.reverse) :
    statusOf (execute_python req e).1 = 200 ∧
    (∃ o er lf, (execute_python req e).1 = .report o er lf) ∧
    pyIn "Server Error during processing:".toList
      (errTextOf (execute_python req e).1) = true := by
  rw [execute_python_report req e (.nonStr t) hj hc]
  refine ⟨rfl, ⟨_, _, _, rfl⟩, ?_⟩
  simp only [errTextOf, run_pipeline, hcf, write_fault]
  have hwne : "write() argument must be str, not ".toList ++ t ≠ [] := by
    simp
  have hwcl : List.dropWhile isPyWS ("write() argument must be str, not ".toList ++ t).reverse =
      ("write() argument must be str, not ".toList ++ t).reverse :=
    back_clean_append _ htc ht
  rw [server_error_strip hwne hwcl]
  have hsq : "Server Error during processing: ".toList =
      "Server Error during processing:".toList ++ [' '] := by decide
  rw [hsq, List.append_assoc]
  exact pyIn_of_isPre (isPre_append _ _)

/-- Witness for C10 at a concrete request whose code value is a JSON number,
Python type name int. -/
theorem C10_nonstring_code_w :
    statusOf (execute_python ⟨true, some (.nonStr "int".toList)⟩
      ⟨"/tmp/a.py".toList, none, none,
        .completed [] [] 0, .completed [] [] 0, none⟩).1 = 200 ∧
    (∃ o er lf, (execute_python ⟨true, some (.nonStr "int".toList)⟩
      ⟨"/tmp/a.py".toList, none, none,
        .completed [] [] 0, .completed [] [] 0, none⟩).1 = .report o er lf) ∧
    pyIn "Server Error during processing:".toList
      (errTextOf (execute_python ⟨true, some (.nonStr "int".toList)⟩
        ⟨"/tmp/a.py".toList, none, none,
          .completed [] [] 0, .completed [] [] 0, none⟩).1) = true :=
  C10_nonstring_code ⟨true, some (.nonStr "int".toList)⟩
    ⟨"/tmp/a.py".toList, none, none, .completed [] [] 0, .completed [] [] 0, none⟩
    "int".toList rfl rfl rfl (by decide) (by decide)

/-- C2 counterexample: a real process killed by signal 1 completes with
return code -1, and the caller classifies that run as a timeout, not as an
exit with code -1, so a real exit code is conflated with the timeout
sentinel and the claimed mutual distinguishability fails. -/
theorem C2_conflation_counterexample :
    classify_return_code
        (run_subprocess (some 5) (.completed [] "Hangup".toList (-1))).2.2 =
      Classified.timedOutC ∧
    classify_return_code
        (run_subprocess (some 5) (.completed [] "Hangup".toList (-1))).2.2 ≠
      Classified.exitedC (-1) := by
  constructor
  · rfl
  · decide

/-- C2 amended: the runner reserves the return codes -1 and -2 as sentinels
for timeout and launch failure.  For a completed process whose return code is
neither sentinel, including every other non-zero code, the triple is returned
as data with the captured streams and the caller classifies it as an exit;
a timeout is classified as a timeout and a launch failure as a launch
failure.  A real process whose return code is -1 or -2, as arises when it is
killed by signal 1 or 2, is conflated with the corresponding sentinel. -/
theorem C2_statuses (t : Option Nat) (s er m : List Char) (c : Int)
    (h1 : c ≠ -1) (h2 : c ≠ -2) :
    run_subprocess t (.completed s er c) = (some s, er, c) ∧
    classify_return_code (run_subprocess t (.completed s er c)).2.2 =
      Classified.exitedC c ∧
    classify_return_code (run_subprocess t .timedOut).2.2 = Classified.timedOutC ∧
    classify_return_code (run_subprocess t (.launchError m)).2.2 =
      Classified.launchFailedC := by
  refine ⟨rfl, ?_, ?_, ?_⟩
  · simp [run_subprocess, classify_return_code, h1, h2]
  · simp [run_subprocess, classify_return_code]
  · simp [run_subprocess, classify_return_code]

/-- Witness for C2 amended at a concrete non-zero exit code. -/
theorem C2_statuses_w :
    run_subprocess (some 5) (.completed "out".toList "err".toList 17) =
      (some "out".toList, "err".toList, 17) ∧
    classify_return_code
        (run_subprocess (some 5) (.completed "out".toList "err".toList 17)).2.2 =
      Classified.exitedC 17 ∧
    classify_return_code (run_subprocess (some 5) .timedOut).2.2 =
      Classified.timedOutC ∧
    classify_return_code (run_subprocess (some 5) (.launchError "m".toList)).2.2 =
      Classified.launchFailedC :=
  C2_statuses (some 5) "out".toList "err".toList "m".toList 17 (by decide) (by decide)

/-- C3 counterexample: on a timed out execution the error field is not equal
to the claimed exact text, because the handler appends the stderr text the
runner substituted on timeout after the banner. -/
theorem C3_exact_text_counterexample :
    errTextOf (execute_python ⟨true, some (.pstr "import time".toList)⟩
        ⟨"/tmp/a.py".toList, none, none, .timedOut, .completed [] [] 0, none⟩).1 ≠
      "Timeout Error: Execution exceeded 5 seconds.".toList ∧
    outTextOf (execute_python ⟨true, some (.pstr "import time".toList)⟩
        ⟨"/tmp/a.py".toList, none, none, .timedOut, .completed [] [] 0, none⟩).1 = [] := by
  constructor
  · decide
  · rfl

/-- C3 amended: for every submission whose execution times out, the error
field equals the banner Timeout Error: Execution exceeded 5 seconds. followed
by the runner text Execution timed out after 5 seconds., and the output is
empty because partial stdout is discarded. -/
theorem C3_timeout_error (req : Request) (e : Env) (s : List Char)
    (hj : req.is_json = true) (hc : req.code = some (.pstr s))
    (hcf : e.tmpCreateFault = none) (hwf : e.writeFault = none)
    (hex : e.execOutcome = .timedOut) :
    errTextOf (execute_python req e).1 =
      "Timeout Error: Execution exceeded 5 seconds. Execution timed out after 5 seconds.".toList ∧
    outTextOf (execute_python req e).1 = [] := by
  rw [execute_python_report req e (.pstr s) hj hc,
    run_pipeline_ok (.pstr s) e hcf (by simpa [write_fault] using hwf), hex]
  constructor
  · simp only [errTextOf]
    decide
  · simp only [outTextOf]
    decide

/-- Witness for C3 amended at a concrete sleeping submission. -/
theorem C3_timeout_error_w :
    errTextOf (execute_python ⟨true, some (.pstr "import time".toList)⟩
        ⟨"/tmp/a.py".toList, none, none, .timedOut, .completed [] [] 0, none⟩).1 =
      "Timeout Error: Execution exceeded 5 seconds. Execution timed out after 5 seconds.".toList ∧
    outTextOf (execute_python ⟨true, some (.pstr "import time".toList)⟩
        ⟨"/tmp/a.py".toList, none, none, .timedOut, .completed [] [] 0, none⟩).1 = [] :=
  C3_timeout_error ⟨true, some (.pstr "import time".toList)⟩
    ⟨"/tmp/a.py".toList, none, none, .timedOut, .completed [] [] 0, none⟩
    "import time".toList rfl rfl rfl rfl rfl

/-- C5: when the execute subprocess cannot be launched, the runner reports
the reason text Error running subprocess: followed by the exception message,
and the error field of the report equals Execution Error: Failed to run
subprocess. followed by that reason, with no output.  The message hypotheses
say the exception text is nonempty with no trailing whitespace. -/
theorem C5_launch_failure (req : Request) (e : Env) (s m : List Char)
    (hj : req.is_json = true) (hc : req.code = some (.pstr s))
    (hcf : e.tmpCreateFault = none) (hwf : e.writeFault = none)
    (hex : e.execOutcome = .launchError m) (hm : m ≠ [])
    (hmc : List.dropWhile isPyWS m.reverse = m.reverse) :
    errTextOf (execute_python req e).1 =
      "Execution Error: Failed to run subprocess. Error running subprocess: ".toList ++ m ∧
    outTextOf (execute_python req e).1 = [] := by
  rw [execute_python_report req e (.pstr s) hj hc,
    run_pipeline_ok (.pstr s) e hcf (by simpa [write_fault] using hwf), hex]
  constructor
  · simp only [errTextOf, run_subprocess, exec_report]
    have hisneg : ((-2 : Int) = -1) = False := by decide
    have hassoc : "Execution Error: Failed to run subprocess. ".toList ++
        ("Error running subprocess: ".toList ++ m) =
        "Execution Error: Failed to run subprocess. Error running subprocess: ".toList ++ m := by
      rw [← List.append_assoc]
      have hlit : "Execution Error: Failed to run subprocess. ".toList ++
          "Error running subprocess: ".toList =
          "Execution Error: Failed to run subprocess. Error running subprocess: ".toList := by
        decide
      rw [hlit]
    rw [if_neg (by decide), if_pos trivial, hassoc,
      strip_concat_clean (by decide) (by decide) hmc hm,
      strip_concat_clean (by decide) (by decide) hmc hm]
  · simp only [outTextOf]
    rfl

/-- Witness for C5 at a concrete missing-interpreter message. -/
theorem C5_launch_failure_w :
    errTextOf (execute_python ⟨true, some (.pstr "print(1)".toList)⟩
        ⟨"/tmp/a.py".toList, none, none,
          .launchError "[Errno 2] No such file or directory".toList,
          .completed [] [] 0, none⟩).1 =
      "Execution Error: Failed to run subprocess. Error running subprocess: ".toList ++
        "[Errno 2] No such file or directory".toList ∧
    outTextOf (execute_python ⟨true, some (.pstr "print(1)".toList)⟩
        ⟨"/tmp/a.py".toList, none, none,
          .launchError "[Errno 2] No such file or directory".toList,
          .completed [] [] 0, none⟩).1 = [] :=
  C5_launch_failure ⟨true, some (.pstr "print(1)".toList)⟩
    ⟨"/tmp/a.py".toList, none, none,
      .launchError "[Errno 2] No such file or directory".toList,
      .completed [] [] 0, none⟩
    "print(1)".toList "[Errno 2] No such file or directory".toList
    rfl rfl rfl rfl rfl (by decide) (by decide)

/-- C4 counterexample: a real process that completes with return code -1, as
when it is killed by signal 1, exits with a non-zero code, but the error
field begins with the timeout banner instead of Process exited with status
code -1. -/
theorem C4_signal_exit_counterexample :
    isPre "Process exited with status code -1.".toList
      (errTextOf (execute_python ⟨true, some (.pstr "x".toList)⟩
        ⟨"/tmp/a.py".toList, none, none,
          .completed [] "Hangup".toList (-1), .completed [] [] 0, none⟩).1) = false := by
  decide

/-- C4 amended: for every submission whose process completes with a non-zero
return code other than the sentinels -1 and -2, the error field is the
stripped concatenation of the sentence Process exited with status code c.
with a space and the captured stderr, and in particular begins with that
sentence, except that the sentence is omitted and the error field is just
the stripped stderr when the stderr already contains that same sentence. -/
theorem C4_nonzero_exit (req : Request) (e : Env) (s out stderr : List Char) (c : Int)
    (hj : req.is_json = true) (hc : req.code = some (.pstr s))
    (hcf : e.tmpCreateFault = none) (hwf : e.writeFault = none)
    (hex : e.execOutcome = .completed out stderr c)
    (h0 : c ≠ 0) (h1 : c ≠ -1) (h2 : c ≠ -2) :
    (pyIn ("Process exited with status code ".toList ++ intStr c ++ ".".toList) stderr
        = false →
      errTextOf (execute_python req e).1 =
        pyStrip ("Process exited with status code ".toList ++ intStr c ++ ".".toList
          ++ " ".toList ++ stderr) ∧
      isPre ("Process exited with status code ".toList ++ intStr c ++ ".".toList)
        (errTextOf (execute_python req e).1) = true) ∧
    (pyIn ("Process exited with status code ".toList ++ intStr c ++ ".".toList) stderr
        = true →
      errTextOf (execute_python req e).1 = pyStrip stderr) := by
  rw [execute_python_report req e (.pstr s) hj hc,
    run_pipeline_ok (.pstr s) e hcf (by simpa [write_fault] using hwf), hex]
  simp only [errTextOf, run_subprocess, exec_report]
  rw [if_neg h1, if_neg h2, if_pos h0]
  have hmsgfront : List.dropWhile isPyWS
      ("Process exited with status code ".toList ++ (intStr c ++ ".".toList)) =
      "Process exited with status code ".toList ++ (intStr c ++ ".".toList) :=
    front_clean_append _ (by decide) (by decide)
  have hmsgback : List.dropWhile isPyWS
      ("Process exited with status code ".toList ++ (intStr c ++ ".".toList)).reverse =
      ("Process exited with status code ".toList ++ (intStr c ++ ".".toList)).reverse := by
    have hdot : ("Process exited with status code ".toList ++ (intStr c ++ ".".toList)) =
        ("Process exited with status code ".toList ++ intStr c) ++ ".".toList := by
      rw [List.append_assoc]
    rw [hdot]
    exact back_clean_append _ (by decide) (by decide)
  constructor
  · intro hnotin
    rw [if_pos hnotin]
    refine ⟨pyStrip_idem _, ?_⟩
    rw [pyStrip_idem]
    have hshape : "Process exited with status code ".toList ++ intStr c ++ ".".toList
        ++ " ".toList ++ stderr =
        ("Process exited with status code ".toList ++ (intStr c ++ ".".toList))
          ++ (" ".toList ++ stderr) := by
      simp [List.append_assoc]
    rw [hshape, List.append_assoc]
    exact isPre_msg_strip hmsgfront (by simp) hmsgback
  · intro hin
    rw [if_neg (by rw [hin]; simp)]

/-- Witness for C4 amended at exit code 1 with a traceback stderr. -/
theorem C4_nonzero_exit_w :
    errTextOf (execute_python ⟨true, some (.pstr "1/0".toList)⟩
        ⟨"/tmp/a.py".toList, none, none,
          .completed [] "ZeroDivisionError: division by zero".toList 1,
          .completed [] [] 0, none⟩).1 =
      pyStrip ("Process exited with status code ".toList ++ intStr 1 ++ ".".toList
        ++ " ".toList ++ "ZeroDivisionError: division by zero".toList) ∧
    isPre ("Process exited with status code ".toList ++ intStr 1 ++ ".".toList)
      (errTextOf (execute_python ⟨true, some (.pstr "1/0".toList)⟩
        ⟨"/tmp/a.py".toList, none, none,
          .completed [] "ZeroDivisionError: division by zero".toList 1,
          .completed [] [] 0, none⟩).1) = true :=
  (C4_nonzero_exit ⟨true, some (.pstr "1/0".toList)⟩
    ⟨"/tmp/a.py".toList, none, none,
      .completed [] "ZeroDivisionError: division by zero".toList 1,
      .completed [] [] 0, none⟩
    "1/0".toList [] "ZeroDivisionError: division by zero".toList 1
    rfl rfl rfl rfl rfl (by decide) (by decide) (by decide)).1 (by decide)

/-- C6: for every submission that reaches the pipeline and whose temporary
file creation succeeds, exactly one workspace file is created on every exit
path, its removal is attempted before the call returns, succeeding exactly
when the removal raises nothing, and a removal failure changes only the
server side trace, never the client response. -/
theorem C6_workspace (req : Request) (e : Env) (v : PyVal)
    (hj : req.is_json = true) (hc : req.code = some v)
    (hcf : e.tmpCreateFault = none) :
    (execute_python req e).2.created = [e.tmpPath] ∧
    (e.removeFault = none → (execute_python req e).2.removed = [e.tmpPath]) ∧
    (∀ mfail, e.removeFault = some mfail →
      (execute_python req e).2.removed = [] ∧
      (execute_python req e).2.removeFailed = [e.tmpPath]) ∧
    (∀ f g, (execute_python req { e with removeFault := f }).1 =
      (execute_python req { e with removeFault := g }).1) := by
  rw [execute_python_report req e v hj hc]
  have htrace : (run_pipeline v e).2 = cleanup_trace e := by
    cases hwf : write_fault v e with
    | some d => simp [run_pipeline, hcf, hwf]
    | none => simp [run_pipeline, hcf, hwf]
  refine ⟨?_, ?_, ?_, ?_⟩
  · rw [htrace]
    cases hrf : e.removeFault with
    | none => simp [cleanup_trace, hrf]
    | some mfail => simp [cleanup_trace, hrf]
  · intro hrf
    rw [htrace]
    simp [cleanup_trace, hrf]
  · intro mfail hrf
    rw [htrace]
    simp [cleanup_trace, hrf]
  · intro f g
    have hpipe : ∀ x, (run_pipeline v { e with removeFault := x }).1 = (run_pipeline v e).1 := by
      intro x
      cases v with
      | pstr s =>
        cases hwf : e.writeFault with
        | some d => simp [run_pipeline, write_fault, hcf, hwf]
        | none => simp [run_pipeline, write_fault, hcf, hwf]
      | nonStr t => simp [run_pipeline, write_fault, hcf]
    rw [execute_python_report req { e with removeFault := f } v hj hc,
      execute_python_report req { e with removeFault := g } v hj hc]
    simp only [hpipe]

/-- Witness for C6 at a concrete clean run and a concrete failing removal. -/
theorem C6_workspace_w :
    (execute_python ⟨true, some (.pstr "print(1)".toList)⟩
      ⟨"/tmp/a.py".toList, none, none, .completed "1".toList [] 0,
        .completed [] [] 0, none⟩).2.created = ["/tmp/a.py".toList] ∧
    (execute_python ⟨true, some (.pstr "print(1)".toList)⟩
      ⟨"/tmp/a.py".toList, none, none, .completed "1".toList [] 0,
        .completed [] [] 0, none⟩).2.removed = ["/tmp/a.py".toList] :=
  ⟨(C6_workspace ⟨true, some (.pstr "print(1)".toList)⟩
      ⟨"/tmp/a.py".toList, none, none, .completed "1".toList [] 0,
        .completed [] [] 0, none⟩ (.pstr "print(1)".toList) rfl rfl rfl).1,
    (C6_workspace ⟨true, some (.pstr "print(1)".toList)⟩
      ⟨"/tmp/a.py".toList, none, none, .completed "1".toList [] 0,
        .completed [] [] 0, none⟩ (.pstr "print(1)".toList) rfl rfl rfl).2.1 rfl⟩

/-- C7: the diagnostic formatter is a pure function of the raw linter output;
a line that splits on the colon, at most 3 splits, into exactly 4 parts is
emitted with the path part discarded as the letter L, the line part, a colon,
the column part, a colon, a space and the whitespace-trimmed message part;
a line of any other shape is emitted unchanged; and the formatted sequence
has exactly one entry per input line, so no line is ever dropped. -/
theorem C7_formatter :
    (∀ line p l c m, pySplitMax ':' 3 line = [p, l, c, m] →
      format_lint_line line = ('L' :: l) ++ (':' :: c) ++ (':' :: ' ' :: pyStrip m)) ∧
    (∀ line, (pySplitMax ':' 3 line).length ≠ 4 → format_lint_line line = line) ∧
    (∀ rawOut, ((pySplitAll '\n' (pyStrip rawOut)).map format_lint_line).length =
      (pySplitAll '\n' (pyStrip rawOut)).length) := by
  refine ⟨?_, ?_, ?_⟩
  · intro line p l c m h
    simp [format_lint_line, h]
  · intro line h
    unfold format_lint_line
    rcases hp : pySplitMax ':' 3 line with _ | ⟨a, _ | ⟨b, _ | ⟨d, _ | ⟨f, _ | t⟩⟩⟩⟩
    · rfl
    · rfl
    · rfl
    · rfl
    · exact absurd (by rw [hp]; rfl) h
    · rfl
  · intro rawOut
    simp

/-- Witness for C7 at a concrete well-shaped line and a concrete line with no
colons. -/
theorem C7_formatter_w :
    format_lint_line "/tmp/a.py:1:2: E225 missing whitespace".toList =
      ('L' :: "1".toList) ++ (':' :: "2".toList)
        ++ (':' :: ' ' :: pyStrip " E225 missing whitespace".toList) ∧
    format_lint_line "no colons here".toList = "no colons here".toList :=
  ⟨C7_formatter.1 "/tmp/a.py:1:2: E225 missing whitespace".toList
      "/tmp/a.py".toList "1".toList "2".toList " E225 missing whitespace".toList (by decide),
    C7_formatter.2.1 "no colons here".toList (by decide)⟩

/-- C9: the lint pass is invoked with no deadline, so the lint_feedback field
is the stripped lintFeedback of the runner applied with timeout none; the
lint exit code does not change how the lint stdout is handled; a non-empty
lint stderr makes the lint feedback contain the distinct Flake8 Error
section; and the execution error field does not depend on the lint outcome
at all. -/
theorem C9_lint_handling (req : Request) (e : Env) (s : List Char)
    (hj : req.is_json = true) (hc : req.code = some (.pstr s))
    (hcf : e.tmpCreateFault = none) (hwf : e.writeFault = none) :
    lintTextOf (execute_python req e).1 =
      pyStrip (lintFeedback (run_subprocess none e.lintOutcome)) ∧
    (∀ o er c c2, lintFeedback (run_subprocess none (.completed o er c)) =
      lintFeedback (run_subprocess none (.completed o er c2))) ∧
    (∀ o er c, er ≠ [] →
      pyIn "--- Flake8 Error ---".toList
        (lintFeedback (run_subprocess none (.completed o er c))) = true) ∧
    (∀ lo lo2, errTextOf (execute_python req { e with lintOutcome := lo }).1 =
      errTextOf (execute_python req { e with lintOutcome := lo2 }).1) := by
  refine ⟨?_, ?_, ?_, ?_⟩
  · rw [execute_python_report req e (.pstr s) hj hc,
      run_pipeline_ok (.pstr s) e hcf (by simpa [write_fault] using hwf)]
    rfl
  · intro o er c c2
    rfl
  · intro o er c her
    simp only [run_subprocess, lintFeedback]
    rw [if_pos her]
    apply pyIn_append_left
    have hsplit : ('\n' :: "--- Flake8 Error ---".toList ++ '\n' :: er) =
        '\n' :: ("--- Flake8 Error ---".toList ++ '\n' :: er) := rfl
    rw [hsplit, pyStrip_cons_ws (by decide)]
    exact pyIn_of_isPre (isPre_msg_strip (by decide) (by decide) (by decide))
  · intro lo lo2
    rw [execute_python_report req { e with lintOutcome := lo } (.pstr s) hj hc,
      run_pipeline_ok (.pstr s) { e with lintOutcome := lo } hcf
        (by simpa [write_fault] using hwf),
      execute_python_report req { e with lintOutcome := lo2 } (.pstr s) hj hc,
      run_pipeline_ok (.pstr s) { e with lintOutcome := lo2 } hcf
        (by simpa [write_fault] using hwf)]
    rfl

/-- Witness for C9 at a concrete clean execution with a lint finding and a
lint tool error. -/
theorem C9_lint_handling_w :
    lintTextOf (execute_python ⟨true, some (.pstr "x=1".toList)⟩
        ⟨"/tmp/a.py".toList, none, none, .completed [] [] 0,
          .completed "/tmp/a.py:1:2: E225 bad".toList "boom".toList 1, none⟩).1 =
      pyStrip (lintFeedback (run_subprocess none
        (.completed "/tmp/a.py:1:2: E225 bad".toList "boom".toList 1))) ∧
    pyIn "--- Flake8 Error ---".toList
      (lintFeedback (run_subprocess none
        (.completed "/tmp/a.py:1:2: E225 bad".toList "boom".toList 1))) = true :=
  ⟨(C9_lint_handling ⟨true, some (.pstr "x=1".toList)⟩
      ⟨"/tmp/a.py".toList, none, none, .completed [] [] 0,
        .completed "/tmp/a.py:1:2: E225 bad".toList "boom".toList 1, none⟩
      "x=1".toList rfl rfl rfl rfl).1,
    (C9_lint_handling ⟨true, some (.pstr "x=1".toList)⟩
      ⟨"/tmp/a.py".toList, none, none, .completed [] [] 0,
        .completed "/tmp/a.py:1:2: E225 bad".toList "boom".toList 1, none⟩
      "x=1".toList rfl rfl rfl rfl).2.2.1
      "/tmp/a.py:1:2: E225 bad".toList "boom".toList 1 (by decide)⟩

end PyExec
